import Mathlib

/-!
Verification of the S3-to-database ETL pipeline (`src/main.py`).

The development shallowly embeds the pieces of `main.py` that the claims
are about:

* `convert_date_string` (main.py:73-79): `datetime.strptime(s, '%d-%m-%y')`
  followed by `strftime('%Y-%m-%d')`, with every exception caught and `None`
  returned.  The `strptime` field regexes for `%d-%m-%y` are
  `3[01]|[12]\d|0[1-9]|[1-9]| [1-9]` for the day (one or two digits, or a
  space-padded single digit), `1[0-2]|0[1-9]|[1-9]` for the month (one or
  two digits) and `\d\d` for the year (exactly two digits); the whole string
  must be consumed, and the calendar date is validated after expanding the
  two-digit year with Python's pivot (00-68 -> 20xx, 69-99 -> 19xx).
* `preprocess_csv` (main.py:61-70): pandas `read_csv`, an `apply` of the date
  converter over the columns "Join Date" and "Last Payment Date", `to_csv`.
* `create_table_if_not_exists` (main.py:39-58): `CREATE TABLE IF NOT EXISTS`
  against a relational catalogue.
* `upload_file_to_s3` / `fetch_csv_from_s3` (main.py:82-95): one SDK call in
  a try/except which logs and swallows the error.
* `main` (main.py:98-141): `psycopg2.connect` (outside any try), the table
  creation, the five pipeline stages, the final COPY in a
  try/except/finally that commits only after a successful COPY and closes
  cursor and connection in the `finally` block.

Python cell values coming out of pandas are modelled by `PyVal`; machine-level
concerns (logging text, file handles) are outside the model.
-/

namespace S3DB

/-! ## Date Normalizer (`convert_date_string`, main.py:73-79) -/

/-- A pandas/Python cell value as seen by `convert_date_string`:
a string, an integer, `None`, or the float NaN pandas uses for empty cells. -/
inductive PyVal where
  | pyStr (s : String)
  | pyInt (n : Int)
  | pyNone
  | nan
deriving DecidableEq

/-- Value of an ASCII digit character, as matched by `\d` in the
`_strptime` regex (codepoints 48-57). -/
def digitVal? (c : Char) : Option Nat :=
  if 48 ≤ c.toNat ∧ c.toNat ≤ 57 then some (c.toNat - 48) else none

/-- Value of a token of exactly two digits. -/
def twoDigits? (c₁ c₂ : Char) : Option Nat :=
  match digitVal? c₁, digitVal? c₂ with
  | some a, some b => some (10 * a + b)
  | _, _ => none

/-- Value of a `%d` field token, per the `strptime` day regex
`3[01]|[12]\d|0[1-9]|[1-9]| [1-9]`: one digit, two digits, or a space
followed by one digit.  The numeric range restriction the alternatives
impose (1-31, and 1-9 after the space) is applied in `parseDMY`, which
rejects any day value outside 1..31 (and value 0 for the padded forms). -/
def dayTok? : List Char → Option Nat
  | [c] => digitVal? c
  | [c₁, c₂] => if c₁ = ' ' then digitVal? c₂ else twoDigits? c₁ c₂
  | _ => none

/-- Value of a `%m` field token, per the `strptime` month regex
`1[0-2]|0[1-9]|[1-9]`: one or two digits, no space padding; the range
restriction (1-12) is applied in `parseDMY`. -/
def monthTok? : List Char → Option Nat
  | [c] => digitVal? c
  | [c₁, c₂] => twoDigits? c₁ c₂
  | _ => none

/-- Value of a `%y` field token, per the `strptime` two-digit-year regex
`\d\d`: exactly two digits. -/
def yearTok? : List Char → Option Nat
  | [c₁, c₂] => twoDigits? c₁ c₂
  | _ => none

/-- Split a character list at every `'-'`, mirroring how the `%d-%m-%y`
regex segments the input at the literal dashes. -/
def splitDash : List Char → List (List Char)
  | [] => [[]]
  | c :: cs =>
    if c = '-' then [] :: splitDash cs
    else
      match splitDash cs with
      | [] => [[c]]
      | t :: ts => (c :: t) :: ts

/-- Python's two-digit-year pivot used by `strptime` (`%y`):
00-68 map to 20xx, 69-99 to 19xx. -/
def expandYear (y : Nat) : Nat := if y ≤ 68 then 2000 + y else 1900 + y

/-- Gregorian leap-year rule, as used by `datetime.date`. -/
def isLeap (y : Nat) : Bool := y % 4 = 0 ∧ (y % 100 ≠ 0 ∨ y % 400 = 0)

/-- Number of days of month `m` in year `y`, as validated by the
`datetime.date` constructor. -/
def daysInMonth (y m : Nat) : Nat :=
  if m = 2 then (if isLeap y then 29 else 28)
  else if m = 4 ∨ m = 6 ∨ m = 9 ∨ m = 11 then 30 else 31

/-- `datetime.strptime(s, '%d-%m-%y')`: returns `(day, month, fullYear)` when
the string is three dash-separated field tokens (day, month, two-digit year)
in range and the calendar date exists, `none` when `strptime` would raise
`ValueError`. -/
def parseDMY (s : String) : Option (Nat × Nat × Nat) :=
  match splitDash s.data with
  | [dTok, mTok, yTok] =>
    match dayTok? dTok, monthTok? mTok, yearTok? yTok with
    | some d, some m, some y2 =>
      if 1 ≤ d ∧ d ≤ 31 ∧ 1 ≤ m ∧ m ≤ 12 then
        if d ≤ daysInMonth (expandYear y2) m then some (d, m, expandYear y2)
        else none
      else none
    | _, _, _ => none
  | _ => none

/-- The ASCII digit character for `n < 10`. -/
def digitChar (n : Nat) : Char := Char.ofNat (48 + n)

/-- Two-digit zero-padded rendering (`%m`/`%d` in `strftime`). -/
def pad2 (n : Nat) : List Char := [digitChar (n / 10), digitChar (n % 10)]

/-- Four-digit zero-padded rendering (`%Y` in `strftime`, for years < 10000). -/
def pad4 (n : Nat) : List Char :=
  [digitChar (n / 1000 % 10), digitChar (n / 100 % 10),
   digitChar (n / 10 % 10), digitChar (n % 10)]

/-- `date.strftime('%Y-%m-%d')`. -/
def fmtYMD (y m d : Nat) : String :=
  ⟨pad4 y ++ '-' :: (pad2 m ++ '-' :: pad2 d)⟩

/-- `convert_date_string` (main.py:73-79): parse with `'%d-%m-%y'`, re-format
with `'%Y-%m-%d'`; every exception (including the `TypeError` raised by
`strptime` on a non-string argument) is caught and `None` is returned. -/
def convert_date_string : PyVal → Option String
  | .pyStr s => (parseDMY s).map fun t => fmtYMD t.2.2 t.2.1 t.1
  | _ => none

/-! ### Facts about the strptime embedding -/

theorem digitVal?_ne_dash {c : Char} {v : Nat} (h : digitVal? c = some v) : c ≠ '-' := by
  intro hc
  rw [hc] at h
  have : digitVal? '-' = none := by decide
  rw [this] at h
  exact Option.noConfusion h

theorem twoDigits?_no_dash {c₁ c₂ : Char} {v : Nat} (h : twoDigits? c₁ c₂ = some v) :
    c₁ ≠ '-' ∧ c₂ ≠ '-' := by
  unfold twoDigits? at h
  cases h₁ : digitVal? c₁ with
  | none => rw [h₁] at h; exact Option.noConfusion h
  | some a =>
    cases h₂ : digitVal? c₂ with
    | none => rw [h₁, h₂] at h; exact Option.noConfusion h
    | some b => exact ⟨digitVal?_ne_dash h₁, digitVal?_ne_dash h₂⟩

theorem dayTok?_no_dash {t : List Char} {v : Nat} (h : dayTok? t = some v) : '-' ∉ t := by
  match t with
  | [c] =>
    intro hm
    rcases List.mem_singleton.mp hm with hm
    exact digitVal?_ne_dash (hm ▸ h) rfl
  | [c₁, c₂] =>
    simp only [dayTok?] at h
    intro hm
    by_cases hsp : c₁ = ' '
    · rw [if_pos hsp] at h
      rcases List.mem_cons.mp hm with hm | hm
      · exact absurd (hm.trans hsp) (by decide)
      · rcases List.mem_singleton.mp hm with hm
        exact digitVal?_ne_dash (hm ▸ h) rfl
    · rw [if_neg hsp] at h
      rcases List.mem_cons.mp hm with hm | hm
      · exact (twoDigits?_no_dash h).1 hm.symm
      · rcases List.mem_singleton.mp hm with hm
        exact (twoDigits?_no_dash h).2 hm.symm
  | [] => simp [dayTok?] at h
  | c₁ :: c₂ :: c₃ :: rest => simp [dayTok?] at h

theorem monthTok?_no_dash {t : List Char} {v : Nat} (h : monthTok? t = some v) : '-' ∉ t := by
  match t with
  | [c] =>
    intro hm
    rcases List.mem_singleton.mp hm with hm
    exact digitVal?_ne_dash (hm ▸ h) rfl
  | [c₁, c₂] =>
    simp only [monthTok?] at h
    intro hm
    rcases List.mem_cons.mp hm with hm | hm
    · exact (twoDigits?_no_dash h).1 hm.symm
    · rcases List.mem_singleton.mp hm with hm
      exact (twoDigits?_no_dash h).2 hm.symm
  | [] => simp [monthTok?] at h
  | c₁ :: c₂ :: c₃ :: rest => simp [monthTok?] at h

theorem yearTok?_no_dash {t : List Char} {v : Nat} (h : yearTok? t = some v) : '-' ∉ t := by
  match t with
  | [c₁, c₂] =>
    simp only [yearTok?] at h
    intro hm
    rcases List.mem_cons.mp hm with hm | hm
    · exact (twoDigits?_no_dash h).1 hm.symm
    · rcases List.mem_singleton.mp hm with hm
      exact (twoDigits?_no_dash h).2 hm.symm
  | [] => simp [yearTok?] at h
  | [c] => simp [yearTok?] at h
  | c₁ :: c₂ :: c₃ :: rest => simp [yearTok?] at h

theorem splitDash_ne_nil (l : List Char) : splitDash l ≠ [] := by
  cases l with
  | nil => simp [splitDash]
  | cons c cs =>
    simp only [splitDash]
    split
    · simp
    · split <;> simp

theorem splitDash_append (a rest : List Char) (ha : '-' ∉ a) :
    splitDash (a ++ '-' :: rest) = a :: splitDash rest := by
  induction a with
  | nil => simp [splitDash]
  | cons c cs ih =>
    have hc : ¬ c = '-' := fun h => ha (h ▸ List.mem_cons_self c cs)
    have ha' : '-' ∉ cs := fun h => ha (List.mem_cons_of_mem c h)
    simp only [List.cons_append, splitDash, if_neg hc]
    rw [List.append_eq, ih ha']

theorem splitDash_no_dash (a : List Char) (ha : '-' ∉ a) : splitDash a = [a] := by
  induction a with
  | nil => rfl
  | cons c cs ih =>
    have hc : ¬ c = '-' := fun h => ha (h ▸ List.mem_cons_self c cs)
    have ha' : '-' ∉ cs := fun h => ha (List.mem_cons_of_mem c h)
    simp only [splitDash, if_neg hc, ih ha']

theorem daysInMonth_le_31 (y m : Nat) : daysInMonth y m ≤ 31 := by
  unfold daysInMonth
  split
  · split <;> omega
  · split <;> omega

/-- The strings accepted by `strptime(·, '%d-%m-%y')`: three dash-separated
field tokens (day per `%d`, month per `%m`, year per the two-digit `%y`)
whose values form an existing calendar date after two-digit-year
expansion. -/
def ValidDMY (s : String) : Prop :=
  ∃ dT mT yT d m y2,
    s.data = dT ++ '-' :: (mT ++ '-' :: yT)
    ∧ dayTok? dT = some d ∧ monthTok? mT = some m ∧ yearTok? yT = some y2
    ∧ 1 ≤ d ∧ 1 ≤ m ∧ m ≤ 12 ∧ d ≤ daysInMonth (expandYear y2) m

theorem parseDMY_of_tokens (dT mT yT : List Char) (d m y2 : Nat)
    (hdT : dayTok? dT = some d) (hmT : monthTok? mT = some m)
    (hyT : yearTok? yT = some y2)
    (hd : 1 ≤ d) (hm : 1 ≤ m) (hm' : m ≤ 12)
    (hdm : d ≤ daysInMonth (expandYear y2) m) :
    parseDMY ⟨dT ++ '-' :: (mT ++ '-' :: yT)⟩ = some (d, m, expandYear y2) := by
  have hd31 : d ≤ 31 := le_trans hdm (daysInMonth_le_31 _ _)
  unfold parseDMY
  rw [show (String.mk (dT ++ '-' :: (mT ++ '-' :: yT))).data
        = dT ++ '-' :: (mT ++ '-' :: yT) from rfl]
  rw [splitDash_append dT _ (dayTok?_no_dash hdT),
      splitDash_append mT _ (monthTok?_no_dash hmT),
      splitDash_no_dash yT (yearTok?_no_dash hyT)]
  simp only []
  rw [hdT, hmT, hyT]
  simp only []
  rw [if_pos ⟨hd, hd31, hm, hm'⟩, if_pos hdm]

/-- Inverse of `splitDash`: interpose `'-'` between the segments. -/
def joinDash : List (List Char) → List Char
  | [] => []
  | [t] => t
  | t :: ts => t ++ '-' :: joinDash ts

theorem joinDash_splitDash (l : List Char) : joinDash (splitDash l) = l := by
  induction l with
  | nil => rfl
  | cons c cs ih =>
    by_cases hc : c = '-'
    · subst hc
      simp only [splitDash, if_pos rfl]
      cases h : splitDash cs with
      | nil => exact absurd h (splitDash_ne_nil cs)
      | cons t ts =>
        rw [h] at ih
        simp only [joinDash, List.nil_append]
        cases ts with
        | nil => simp only [joinDash] at ih ⊢; rw [ih]
        | cons t2 ts2 => simp only [joinDash] at ih ⊢; rw [ih]
    · simp only [splitDash, if_neg hc]
      cases h : splitDash cs with
      | nil => exact absurd h (splitDash_ne_nil cs)
      | cons t ts =>
        rw [h] at ih
        cases ts with
        | nil =>
          simp only [joinDash] at ih ⊢
          rw [ih]
        | cons t2 ts2 =>
          simp only [joinDash] at ih ⊢
          rw [List.cons_append, ih]

theorem parseDMY_valid {s : String} {d m y : Nat}
    (h : parseDMY s = some (d, m, y)) : ValidDMY s := by
  unfold parseDMY at h
  split at h
  · rename_i dTok mTok yTok hsp
    split at h
    · rename_i dv mv yv hdT hmT hyT
      split at h
      · rename_i hcond
        split at h
        · rename_i hdays
          have hjoin := joinDash_splitDash s.data
          rw [hsp] at hjoin
          have hs : s.data = dTok ++ '-' :: (mTok ++ '-' :: yTok) := by
            rw [← hjoin]; rfl
          exact ⟨dTok, mTok, yTok, dv, mv, yv, hs, hdT, hmT, hyT,
                 hcond.1, hcond.2.2.1, hcond.2.2.2, hdays⟩
        · exact absurd h (by simp)
      · exact absurd h (by simp)
    · rename_i hne
      exact absurd h (by simp)
  · exact absurd h (by simp)

/-- Claim C1: for every date string in valid day-month-2digityear format
(three dash-separated field tokens — day and month of one or two digits, the
day possibly space-padded, the year exactly two digits — forming an existing
calendar date), `convert_date_string` returns the equivalent date rendered
as a 4-digit-year `year-month-day` string, with the two-digit year expanded
by the host library's pivot (`expandYear`). -/
theorem C1_convert_date_string_valid (dT mT yT : List Char) (d m y2 : Nat)
    (hdT : dayTok? dT = some d) (hmT : monthTok? mT = some m)
    (hyT : yearTok? yT = some y2)
    (hd : 1 ≤ d) (hm : 1 ≤ m) (hm' : m ≤ 12)
    (hdm : d ≤ daysInMonth (expandYear y2) m) :
    convert_date_string (.pyStr ⟨dT ++ '-' :: (mT ++ '-' :: yT)⟩)
      = some (fmtYMD (expandYear y2) m d) := by
  simp only [convert_date_string]
  rw [parseDMY_of_tokens dT mT yT d m y2 hdT hmT hyT hd hm hm' hdm]
  rfl

/-- Witness for C1 at the spec's example: `"05-03-21"` normalizes to
`"2021-03-05"`; the space-padded day form `" 5-03-21"` accepted by `%d`
normalizes to the same value. -/
theorem C1_witness :
    dayTok? ['0', '5'] = some 5 ∧ monthTok? ['0', '3'] = some 3
    ∧ yearTok? ['2', '1'] = some 21 ∧ dayTok? [' ', '5'] = some 5
    ∧ (1 ≤ 5 ∧ 1 ≤ 3 ∧ 3 ≤ 12 ∧ 5 ≤ daysInMonth (expandYear 21) 3)
    ∧ convert_date_string (.pyStr "05-03-21") = some "2021-03-05"
    ∧ convert_date_string (.pyStr " 5-03-21") = some "2021-03-05" := by
  refine ⟨by decide, by decide, by decide, by decide, by decide, ?_, ?_⟩
  · have h := C1_convert_date_string_valid ['0', '5'] ['0', '3'] ['2', '1'] 5 3 21
      (by decide) (by decide) (by decide) (by decide) (by decide) (by decide) (by decide)
    exact h
  · have h := C1_convert_date_string_valid [' ', '5'] ['0', '3'] ['2', '1'] 5 3 21
      (by decide) (by decide) (by decide) (by decide) (by decide) (by decide) (by decide)
    exact h

/-- Claim C2: every string input is either a valid day-month-2digityear date
(`ValidDMY`) or `convert_date_string` returns `None` on it; `convert_date_string`
is a total function (the source catches every exception), and in particular the
malformed inputs `"2021/03/05"` (wrong separator), `"32-13-99"` (invalid
calendar date) and `"05-03-1"` (one-digit year, rejected by the two-digit
`%y`) yield `None`. -/
theorem C2_convert_date_string_malformed :
    (∀ s : String, ValidDMY s ∨ convert_date_string (.pyStr s) = none)
    ∧ convert_date_string (.pyStr "2021/03/05") = none
    ∧ convert_date_string (.pyStr "32-13-99") = none
    ∧ convert_date_string (.pyStr "05-03-1") = none := by
  refine ⟨fun s => ?_, by decide, by decide, by decide⟩
  cases h : parseDMY s with
  | none => exact Or.inr (by simp [convert_date_string, h])
  | some t =>
    obtain ⟨d, m, y⟩ := t
    exact Or.inl (parseDMY_valid h)

/-- Claim C10: `convert_date_string` is total over arbitrary Python values,
not just strings: on every non-string input (such as the NaN pandas produces
for empty CSV cells, or `None`) it returns `None` without raising, because
the `except Exception` clause also catches the `TypeError` from `strptime`. -/
theorem C10_convert_date_string_nonstring (v : PyVal)
    (h : ∀ s : String, v ≠ PyVal.pyStr s) : convert_date_string v = none := by
  cases v with
  | pyStr s => exact absurd rfl (h s)
  | pyInt n => rfl
  | pyNone => rfl
  | nan => rfl

/-- Witness for C10 at the pandas NaN value. -/
theorem C10_witness :
    (∀ s : String, PyVal.nan ≠ PyVal.pyStr s)
    ∧ convert_date_string PyVal.nan = none := by
  refine ⟨fun s h => PyVal.noConfusion h, ?_⟩
  exact C10_convert_date_string_nonstring PyVal.nan fun s h => PyVal.noConfusion h

/-! ## CSV Preprocessor (`preprocess_csv`, main.py:61-70) -/

/-- A pandas `DataFrame` as produced by `read_csv`: a header of column
labels and the data rows (`read_csv` mangles duplicate labels, and each
row has one cell per column). -/
structure Table where
  header : List String
  rows : List (List PyVal)
deriving DecidableEq

/-- The value stored back into a cell by
`df[col].apply(lambda x: convert_date_string(x))`: the converted string, or
Python `None` when conversion failed. -/
def normCell (v : PyVal) : PyVal :=
  match convert_date_string v with
  | some s => .pyStr s
  | none => .pyNone

/-- `df[c] = df[c].apply(lambda x: convert_date_string(x))`: replace, in every
row, the cell of the column labelled `c` by its normalized value.  (Cell
lookup and replacement happen at the label's column index; `List.set` and
`List.getD` are no-ops/defaults beyond the row length, which a `read_csv`
frame never reaches.) -/
def applyDateCol (t : Table) (c : String) : Table :=
  ⟨t.header,
   t.rows.map fun r =>
     r.set (t.header.indexOf c) (normCell (r.getD (t.header.indexOf c) .nan))⟩

/-- `preprocess_csv` (main.py:61-70) at the dataframe level: given the parsed
input file (`none` when `read_csv` itself failed), normalize the columns
"Join Date" then "Last Payment Date" and return the frame written by
`to_csv`.  When either column is absent, pandas raises `KeyError`, the
`except` clause records it, and no output file is produced (`none`). -/
def preprocess_csv (input : Option Table) : Option Table :=
  match input with
  | none => none
  | some t =>
    if "Join Date" ∈ t.header ∧ "Last Payment Date" ∈ t.header then
      some (applyDateCol (applyDateCol t "Join Date") "Last Payment Date")
    else none

/-- The cell of row `k`, column index `j` (defaulting like pandas to NaN). -/
def cellAt (t : Table) (k j : Nat) : PyVal := (t.rows.getD k []).getD j .nan

/-! ### List access lemmas used for the frame conditions -/

theorem getD_map_of_lt {α β : Type} (f : α → β) (l : List α) (k : Nat)
    (dβ : β) (dα : α) (hk : k < l.length) :
    (l.map f).getD k dβ = f (l.getD k dα) := by
  induction l generalizing k with
  | nil => simp at hk
  | cons a l ih =>
    cases k with
    | zero => rfl
    | succ k =>
      have : k < l.length := by simpa using hk
      simpa [List.getD_cons_succ] using ih k this

theorem getD_of_le {α : Type} (l : List α) (k : Nat) (d : α)
    (hk : l.length ≤ k) : l.getD k d = d := by
  induction l generalizing k with
  | nil => simp [List.getD]
  | cons a l ih =>
    cases k with
    | zero => simp at hk
    | succ k =>
      have : l.length ≤ k := by simpa using hk
      simpa [List.getD_cons_succ] using ih k this

theorem getD_set_self {α : Type} (l : List α) (i : Nat) (v d : α)
    (h : i < l.length) : (l.set i v).getD i d = v := by
  induction l generalizing i with
  | nil => simp at h
  | cons a l ih =>
    cases i with
    | zero => rfl
    | succ i =>
      have : i < l.length := by simpa using h
      simpa [List.getD_cons_succ] using ih i this

theorem getD_set_ne {α : Type} (l : List α) (i j : Nat) (v d : α)
    (h : j ≠ i) : (l.set i v).getD j d = l.getD j d := by
  induction l generalizing i j with
  | nil => simp
  | cons a l ih =>
    cases i with
    | zero =>
      cases j with
      | zero => exact absurd rfl h
      | succ j => rfl
    | succ i =>
      cases j with
      | zero => rfl
      | succ j =>
        have : j ≠ i := fun hh => h (by omega)
        simpa [List.getD_cons_succ] using ih i j this

theorem getD_mem_of_lt {α : Type} (l : List α) (k : Nat) (d : α)
    (hk : k < l.length) : l.getD k d ∈ l := by
  induction l generalizing k with
  | nil => simp at hk
  | cons a l ih =>
    cases k with
    | zero => exact List.mem_cons_self a l
    | succ k =>
      have : k < l.length := by simpa using hk
      exact List.mem_cons_of_mem a (by simpa [List.getD_cons_succ] using ih k this)

theorem applyDateCol_header (t : Table) (c : String) :
    (applyDateCol t c).header = t.header := rfl

theorem applyDateCol_rows_length (t : Table) (c : String) :
    (applyDateCol t c).rows.length = t.rows.length := by
  simp [applyDateCol]

theorem applyDateCol_row_lengths (t : Table) (c : String)
    (hrows : ∀ r ∈ t.rows, r.length = t.header.length) :
    ∀ r ∈ (applyDateCol t c).rows, r.length = t.header.length := by
  intro r hr
  simp only [applyDateCol, List.mem_map] at hr
  obtain ⟨r0, hr0, rfl⟩ := hr
  simp [List.length_set, hrows r0 hr0]

theorem cellAt_applyDateCol_ne (t : Table) (c : String) (k j : Nat)
    (hj : j ≠ t.header.indexOf c) :
    cellAt (applyDateCol t c) k j = cellAt t k j := by
  by_cases hk : k < t.rows.length
  · unfold cellAt applyDateCol
    rw [getD_map_of_lt _ t.rows k [] [] hk]
    exact getD_set_ne _ _ _ _ _ hj
  · unfold cellAt applyDateCol
    rw [getD_of_le _ k [] (by simpa using Nat.le_of_not_lt hk),
        getD_of_le t.rows k [] (Nat.le_of_not_lt hk)]

theorem cellAt_applyDateCol_self (t : Table) (c : String) (k i : Nat)
    (hi : i = t.header.indexOf c) (hk : k < t.rows.length)
    (hlen : i < (t.rows.getD k []).length) :
    cellAt (applyDateCol t c) k i = normCell (cellAt t k i) := by
  subst hi
  unfold cellAt applyDateCol
  rw [getD_map_of_lt _ t.rows k [] [] hk]
  exact getD_set_self _ _ _ _ hlen

/-- Claim C3: for every well-formed input frame (both date columns present,
each row as wide as the header), `preprocess_csv` produces an output frame
with the same header (one header row in the file) and exactly the same
number of data rows, in which each cell of the "Join Date" and
"Last Payment Date" columns has the date normalizer applied. -/
theorem C3_preprocess_csv_shape (t : Table)
    (h1 : "Join Date" ∈ t.header) (h2 : "Last Payment Date" ∈ t.header)
    (hrows : ∀ r ∈ t.rows, r.length = t.header.length) :
    ∃ t', preprocess_csv (some t) = some t'
      ∧ t'.header = t.header
      ∧ t'.rows.length = t.rows.length
      ∧ ∀ k, k < t.rows.length →
          cellAt t' k (t.header.indexOf "Join Date")
            = normCell (cellAt t k (t.header.indexOf "Join Date"))
          ∧ cellAt t' k (t.header.indexOf "Last Payment Date")
            = normCell (cellAt t k (t.header.indexOf "Last Payment Date")) := by
  have hi1 : t.header.indexOf "Join Date" < t.header.length :=
    List.indexOf_lt_length.mpr h1
  have hi2 : t.header.indexOf "Last Payment Date" < t.header.length :=
    List.indexOf_lt_length.mpr h2
  have hne : t.header.indexOf "Join Date" ≠ t.header.indexOf "Last Payment Date" :=
    fun hEq => absurd ((List.indexOf_inj h1 h2).mp hEq) (by decide)
  refine ⟨applyDateCol (applyDateCol t "Join Date") "Last Payment Date",
    ?_, rfl, ?_, ?_⟩
  · simp only [preprocess_csv]
    rw [if_pos ⟨h1, h2⟩]
  · rw [applyDateCol_rows_length, applyDateCol_rows_length]
  · intro k hk
    have hk1 : k < (applyDateCol t "Join Date").rows.length := by
      rw [applyDateCol_rows_length]; exact hk
    have hlen : (t.rows.getD k []).length = t.header.length :=
      hrows _ (getD_mem_of_lt t.rows k [] hk)
    have hlen1 : ((applyDateCol t "Join Date").rows.getD k []).length
        = t.header.length :=
      applyDateCol_row_lengths t "Join Date" hrows _
        (getD_mem_of_lt _ k [] hk1)
    constructor
    · rw [cellAt_applyDateCol_ne (applyDateCol t "Join Date") "Last Payment Date"
            k (t.header.indexOf "Join Date") hne]
      exact cellAt_applyDateCol_self t "Join Date" k
        (t.header.indexOf "Join Date") rfl hk (hlen ▸ hi1)
    · rw [cellAt_applyDateCol_self (applyDateCol t "Join Date") "Last Payment Date"
            k (t.header.indexOf "Last Payment Date") rfl hk1 (hlen1 ▸ hi2)]
      rw [cellAt_applyDateCol_ne t "Join Date" k
            (t.header.indexOf "Last Payment Date") (Ne.symm hne)]

/-- Witness table for the CSV claims: the spec's end-to-end example row. -/
def sampleTable : Table :=
  ⟨["User ID", "Subscription Type", "Monthly Revenue", "Join Date",
    "Last Payment Date", "Country", "Age", "Gender", "Device",
    "Plan Duration"],
   [[.pyInt 1, .pyStr "Basic", .pyStr "9.99", .pyStr "01-01-22",
     .pyStr "15-01-22", .pyStr "US", .pyInt 34, .pyStr "M",
     .pyStr "Mobile", .pyStr "Monthly"]]⟩

/-- Witness for C3 at the spec's sample table. -/
theorem C3_witness :
    ("Join Date" ∈ sampleTable.header)
    ∧ ("Last Payment Date" ∈ sampleTable.header)
    ∧ (∀ r ∈ sampleTable.rows, r.length = sampleTable.header.length)
    ∧ ∃ t', preprocess_csv (some sampleTable) = some t'
      ∧ t'.header = sampleTable.header
      ∧ t'.rows.length = sampleTable.rows.length
      ∧ ∀ k, k < sampleTable.rows.length →
          cellAt t' k (sampleTable.header.indexOf "Join Date")
            = normCell (cellAt sampleTable k (sampleTable.header.indexOf "Join Date"))
          ∧ cellAt t' k (sampleTable.header.indexOf "Last Payment Date")
            = normCell (cellAt sampleTable k (sampleTable.header.indexOf "Last Payment Date")) := by
  refine ⟨by decide, by decide, by decide, ?_⟩
  exact C3_preprocess_csv_shape sampleTable (by decide) (by decide) (by decide)

/-- Claim C4: `preprocess_csv` changes nothing outside the two date columns:
for every column index other than those of "Join Date" and
"Last Payment Date", every cell (at any row position, in order) is identical
between input and output, and the number of rows is preserved. -/
theorem C4_preprocess_csv_frame (t : Table)
    (h1 : "Join Date" ∈ t.header) (h2 : "Last Payment Date" ∈ t.header) :
    ∃ t', preprocess_csv (some t) = some t'
      ∧ t'.rows.length = t.rows.length
      ∧ ∀ j, j ≠ t.header.indexOf "Join Date" →
          j ≠ t.header.indexOf "Last Payment Date" →
          ∀ k, cellAt t' k j = cellAt t k j := by
  refine ⟨applyDateCol (applyDateCol t "Join Date") "Last Payment Date",
    ?_, ?_, ?_⟩
  · simp only [preprocess_csv]
    rw [if_pos ⟨h1, h2⟩]
  · rw [applyDateCol_rows_length, applyDateCol_rows_length]
  · intro j hj1 hj2 k
    rw [cellAt_applyDateCol_ne (applyDateCol t "Join Date") "Last Payment Date"
          k j hj2,
        cellAt_applyDateCol_ne t "Join Date" k j hj1]

/-- Witness for C4 at the spec's sample table. -/
theorem C4_witness :
    ("Join Date" ∈ sampleTable.header)
    ∧ ("Last Payment Date" ∈ sampleTable.header)
    ∧ ∃ t', preprocess_csv (some sampleTable) = some t'
      ∧ t'.rows.length = sampleTable.rows.length
      ∧ ∀ j, j ≠ sampleTable.header.indexOf "Join Date" →
          j ≠ sampleTable.header.indexOf "Last Payment Date" →
          ∀ k, cellAt t' k j = cellAt sampleTable k j := by
  refine ⟨by decide, by decide, ?_⟩
  exact C4_preprocess_csv_frame sampleTable (by decide) (by decide)

/-! ## Relational Loader: `create_table_if_not_exists` (main.py:39-58) -/

/-- Database catalogue: the list of existing tables, each with its column
list of (name, SQL type). -/
abbrev DBState : Type := List (String × List (String × String))

/-- Column schema of `your_table` exactly as in the `CREATE TABLE` statement
(main.py:42-53). -/
def yourTableColumns : List (String × String) :=
  [("User ID", "INTEGER"), ("Subscription Type", "VARCHAR(50)"),
   ("Monthly Revenue", "NUMERIC"), ("Join Date", "DATE"),
   ("Last Payment Date", "DATE"), ("Country", "VARCHAR(50)"),
   ("Age", "INTEGER"), ("Gender", "VARCHAR(10)"),
   ("Device", "VARCHAR(50)"), ("Plan Duration", "VARCHAR(20)")]

/-- `create_table_if_not_exists` (main.py:39-58): issue
`CREATE TABLE IF NOT EXISTS your_table (...)` and commit.  The statement is
a no-op when the table already exists; the second component is whether an
error was recorded by the `except` clause (the `IF NOT EXISTS` statement
raises no duplicate-table error). -/
def create_table_if_not_exists (db : DBState) : DBState × Bool :=
  if db.any fun e => e.1 == "your_table" then (db, false)
  else (db ++ [("your_table", yourTableColumns)], false)

/-- How many tables named `your_table` the catalogue holds. -/
def countYourTable (db : DBState) : Nat :=
  (db.filter fun e => e.1 == "your_table").length

/-- Claim C7: `create_table_if_not_exists` is idempotent: a second call on
the state left by the first call changes nothing, records no error, and
creates no duplicate `your_table` (the count of tables named `your_table`
is the same after the second call as after the first). -/
theorem C7_create_table_idempotent (db : DBState) :
    (create_table_if_not_exists (create_table_if_not_exists db).1).1
        = (create_table_if_not_exists db).1
    ∧ (create_table_if_not_exists (create_table_if_not_exists db).1).2 = false
    ∧ countYourTable (create_table_if_not_exists (create_table_if_not_exists db).1).1
        = countYourTable (create_table_if_not_exists db).1 := by
  by_cases h : db.any fun e => e.1 == "your_table"
  · simp [create_table_if_not_exists, h]
  · have h2 : ((db ++ [("your_table", yourTableColumns)]).any
        fun e => e.1 == "your_table") = true := by
      simp [List.any_append]
    simp [create_table_if_not_exists, h, h2]

/-! ## Object Store Client (main.py:82-95) -/

/-- `upload_file_to_s3` (main.py:82-87): one single `upload_file` SDK call,
wrapped in try/except.  Input is the outcome the SDK produces for that one
attempt; output is `(number of SDK attempts, recorded error)`.  The function
always returns normally (it has no error outcome of its own). -/
def upload_file_to_s3 (sdk : Except String Unit) : Nat × Option String :=
  match sdk with
  | .ok _ => (1, none)
  | .error e => (1, some e)

/-- `fetch_csv_from_s3` (main.py:90-95): one single `download_file` SDK call,
wrapped in try/except, like `upload_file_to_s3`. -/
def fetch_csv_from_s3 (sdk : Except String Unit) : Nat × Option String :=
  match sdk with
  | .ok _ => (1, none)
  | .error e => (1, some e)

/-- Claim C9: for every invocation of `upload_file_to_s3` or
`fetch_csv_from_s3`, the storage SDK call is attempted exactly once (no
retry), a transport/permission error `e` raised by the SDK is caught and
recorded, a successful transfer records nothing, and either way the function
returns normally (both functions are total with no error outcome). -/
theorem C9_s3_single_attempt (e : String) :
    (upload_file_to_s3 (.ok ())).1 = 1
    ∧ (upload_file_to_s3 (.error e)).1 = 1
    ∧ (upload_file_to_s3 (.ok ())).2 = none
    ∧ (upload_file_to_s3 (.error e)).2 = some e
    ∧ (fetch_csv_from_s3 (.ok ())).1 = 1
    ∧ (fetch_csv_from_s3 (.error e)).1 = 1
    ∧ (fetch_csv_from_s3 (.ok ())).2 = none
    ∧ (fetch_csv_from_s3 (.error e)).2 = some e :=
  ⟨rfl, rfl, rfl, rfl, rfl, rfl, rfl, rfl⟩

/-! ## Pipeline Driver: `main` (main.py:98-144) -/

/-- Events of one execution of `main`, in program order. -/
inductive Event where
  | connectAttempt
  | createTable (ok : Bool)
  | uploadRaw (ok : Bool)
  | fetchRaw (ok : Bool)
  | preprocessStage (ok : Bool)
  | uploadClean (ok : Bool)
  | copyAttempt
  | commit
  | rollback
  | closeCursor
  | closeConn
deriving DecidableEq

/-- Environment outcomes for one run: whether `psycopg2.connect` succeeds,
whether each stage's internal work succeeds (each stage catches and merely
records its own failure), and whether the final `COPY` succeeds. -/
structure Outcomes where
  connectOk : Bool
  createOk : Bool
  uploadRawOk : Bool
  fetchOk : Bool
  preprocessOk : Bool
  uploadCleanOk : Bool
  copyOk : Bool
deriving DecidableEq

/-- `main` (main.py:98-144) as a trace semantics: the list of events the run
produces and the process exit code.  `psycopg2.connect` (main.py:111) is
outside every try block, so its failure propagates out of `main` and the
interpreter exits with code 1; afterwards each of the five stages runs
unconditionally (the driver never inspects a return value), the final COPY
commits only on success (no rollback is ever issued), and the `finally`
block closes cursor and connection. -/
def mainRun (o : Outcomes) : List Event × Nat :=
  if o.connectOk = false then ([.connectAttempt], 1)
  else
    (([Event.connectAttempt, .createTable o.createOk, .uploadRaw o.uploadRawOk,
       .fetchRaw o.fetchOk, .preprocessStage o.preprocessOk,
       .uploadClean o.uploadCleanOk, .copyAttempt]
      ++ (if o.copyOk then [Event.commit] else []))
      ++ [.closeCursor, .closeConn], 0)

/-- Names of the five pipeline stages of §4.5. -/
inductive StageName where
  | uploadRaw
  | fetchRaw
  | preprocessStage
  | uploadClean
  | bulkLoad
deriving DecidableEq

/-- Project an event onto the pipeline stage it executes, if any. -/
def stageName? : Event → Option StageName
  | .uploadRaw _ => some .uploadRaw
  | .fetchRaw _ => some .fetchRaw
  | .preprocessStage _ => some .preprocessStage
  | .uploadClean _ => some .uploadClean
  | .copyAttempt => some .bulkLoad
  | _ => none

/-- The sequence of pipeline stages a trace executes. -/
def stagesOf (tr : List Event) : List StageName := tr.filterMap stageName?

/-- Claim C5: once the driver is running (the connection attempt succeeded),
it executes exactly the five stages Upload-Raw, Fetch-Raw, Preprocess,
Upload-Clean, Bulk-Load, in that fixed order, whatever failures the stages
record — the outcome bits of every stage are universally quantified and the
stage sequence does not depend on them. -/
theorem C5_five_stages_in_order (o : Outcomes) (h : o.connectOk = true) :
    stagesOf (mainRun o).1
      = [.uploadRaw, .fetchRaw, .preprocessStage, .uploadClean, .bulkLoad] := by
  unfold mainRun
  rw [h]
  by_cases hc : o.copyOk <;> simp [hc, stagesOf, stageName?]

/-- Witness for C5: a run in which every stage fails still executes the five
stages in order. -/
theorem C5_witness :
    (Outcomes.mk true false false false false false false).connectOk = true
    ∧ stagesOf (mainRun (Outcomes.mk true false false false false false false)).1
      = [.uploadRaw, .fetchRaw, .preprocessStage, .uploadClean, .bulkLoad] :=
  ⟨rfl, C5_five_stages_in_order (Outcomes.mk true false false false false false false) rfl⟩

/-- Counterexample to claim C6 as stated: when `psycopg2.connect`
(main.py:111) fails — a database failure that is an internal failure of the
run — the exception propagates to the process entry point (the call is
outside every try block) and the process does not exit 0. -/
theorem C6_counterexample :
    (mainRun (Outcomes.mk false true true true true true true)).2 ≠ 0 := by
  decide

/-- Claim C6 amended: every error raised inside the stage functions or the
bulk-load try block is caught there, so whenever the connection attempt at
main.py:111 succeeds the process exits 0 regardless of any other internal
failure; only a failure of `psycopg2.connect` itself reaches the entry
point. -/
theorem C6_exit_zero_after_connect (o : Outcomes) (h : o.connectOk = true) :
    (mainRun o).2 = 0 := by
  unfold mainRun
  rw [h]
  simp

/-- Witness for the amended C6: a run where every stage and the COPY fail
still exits 0, provided the connection succeeded. -/
theorem C6_witness :
    (Outcomes.mk true false false false false false false).connectOk = true
    ∧ (mainRun (Outcomes.mk true false false false false false false)).2 = 0 :=
  ⟨rfl, C6_exit_zero_after_connect
          (Outcomes.mk true false false false false false false) rfl⟩

/-- Claim C8: in the bulk-load step, the transaction is committed exactly
when the COPY succeeds, no rollback is ever issued, and the cursor and the
connection are closed at the very end of the trace (the `finally` block)
whether or not the bulk load succeeded. -/
theorem C8_bulk_load_commit_cleanup (o : Outcomes) (h : o.connectOk = true) :
    (Event.commit ∈ (mainRun o).1 ↔ o.copyOk = true)
    ∧ Event.rollback ∉ (mainRun o).1
    ∧ ∃ pre, (mainRun o).1 = pre ++ [Event.closeCursor, Event.closeConn] := by
  unfold mainRun
  rw [h]
  refine ⟨?_, ?_, ?_⟩
  · by_cases hc : o.copyOk <;> simp [hc]
  · by_cases hc : o.copyOk <;> simp [hc]
  · exact ⟨_, rfl⟩

/-- Witness for C8: a run whose COPY fails commits nothing, rolls back
nothing, and still closes cursor and connection last. -/
theorem C8_witness :
    (Outcomes.mk true true true true true true false).connectOk = true
    ∧ ((Event.commit ∈ (mainRun (Outcomes.mk true true true true true true false)).1
          ↔ (Outcomes.mk true true true true true true false).copyOk = true)
       ∧ Event.rollback ∉ (mainRun (Outcomes.mk true true true true true true false)).1
       ∧ ∃ pre, (mainRun (Outcomes.mk true true true true true true false)).1
            = pre ++ [Event.closeCursor, Event.closeConn]) :=
  ⟨rfl, C8_bulk_load_commit_cleanup
          (Outcomes.mk true true true true true true false) rfl⟩

end S3DB
